import Mathlib

/-!
Shallow embedding of the NFT-integrated skill-badges application core
(backend Express controllers and services, frontend badge/retry flow).

Conventions used throughout:
* Nondeterministic pieces of the TypeScript source (`Date.now()`, the
  `Math.random().toString(36).substring(7)` suffix) are explicit parameters
  (`now : Nat`, `rand : String`).
* Fallible/async code is modelled with explicit outcome types
  (`ServiceOutcome`, `QueryOutcome`): the value the awaited promise resolved
  to, or the thrown error caught by the surrounding `try`/`catch`.
* External stores (the Supabase relational `badges` table, the object-storage
  bucket) are association lists threaded through the functions that touch
  them, so reads/writes are visible in the state.
-/

namespace SkillBadges

/-- Structure `NFTMintResult` from `backend/src/types/blockchain.ts`, as constructed by
the mint services: `{ success, txHash, tokenId, metadataUrl }`. -/
structure NFTMintResult where
  success : Bool
  txHash : String
  tokenId : String
  metadataUrl : String
deriving Repr, DecidableEq

/-- The `testMetadata` payload of `TestRegistrationResult`:
`{ testId, creator, metadataCid, createdAt: Date.now() }`. -/
structure TestMetadata where
  testId : String
  creator : String
  metadataCid : String
  createdAt : Nat
deriving Repr, DecidableEq

/-- Structure `TestRegistrationResult`: `{ success, txHash, testMetadata }`. -/
structure TestRegistrationResult where
  success : Bool
  txHash : String
  testMetadata : TestMetadata
deriving Repr, DecidableEq

/-- The simulated transaction hash used by every service:
`` `sim_${Date.now()}_${Math.random().toString(36).substring(7)}` ``.
String concatenation is associative; we nest to the right so that the
reserved `"sim_"` prefix is syntactically outermost. -/
def mkSimTxHash (now : Nat) (rand : String) : String :=
  "sim_" ++ (toString now ++ ("_" ++ rand))

/-- The simulated token id of `badgeNFTService.mintBadgeNFT` (no-signer
branch): `` `nft_${Date.now()}_${Math.random().toString(36).substring(7)}` ``. -/
def mkSimTokenId (now : Nat) (rand : String) : String :=
  "nft_" ++ (toString now ++ ("_" ++ rand))

/-- The generated token id of `nftService.mintBadgeNFT` and the signed-mode
decode fallback of `badgeNFTService.mintBadgeNFT`:
`` `nft_${testId}_${Date.now()}` ``. -/
def fallbackTokenId (testId : String) (now : Nat) : String :=
  "nft_" ++ (testId ++ ("_" ++ toString now))

/-- Predicate: `s` begins with the prefix string `p` (on the underlying character
data). -/
abbrev hasPrefixStr (p s : String) : Prop :=
  s.data.take p.data.length = p.data

lemma hasPrefixStr_append (p s : String) : hasPrefixStr p (p ++ s) := by
  show (p ++ s).data.take p.data.length = p.data
  rw [String.data_append]
  exact List.take_left p.data s.data

/-! ## Object Store Adapter (spec §4.2, `supabase.storage` call sites) -/

/-- The object-storage bucket, as key ↦ stored content. -/
abbrev ObjectStore := List (String × String)

inductive UploadOutcome where
  | conflict
  | uploaded
deriving Repr, DecidableEq

/-- Modelled from the spec: the storage backend behind
`supabase.storage.from(bucket).upload(path, bytes, upsert)` is an external
service (the Supabase client library), not code under `src/`.  Spec §4.2:
with `overwrite=false` an existing key fails with `Conflict`; with
`overwrite=true` last write wins. -/
def upload (store : ObjectStore) (key content : String) (overwrite : Bool) :
    UploadOutcome × ObjectStore :=
  match store.lookup key with
  | some _ =>
    if overwrite then
      (.uploaded, store.map (fun kv => if kv.1 = key then (key, content) else kv))
    else
      (.conflict, store)
  | none => (.uploaded, (key, content) :: store)

/-- The public-URL derivation used at every call site
(`frontend/src/utils/sorobanSimple.ts`):
`` `${supabaseUrl}/storage/v1/object/public/${bucket}/${key}` `` — a pure
string concatenation that performs no I/O and does not read the store. -/
def publicUrl (base bucket key : String) : String :=
  base ++ "/storage/v1/object/public/" ++ bucket ++ "/" ++ key

/-! ## Metadata Generator (`generateBadgeMetadataUri`, sorobanSimple.ts) -/

/-- One `{ trait_type, value }` entry of the metadata `attributes` array. -/
structure MetaAttribute where
  trait_type : String
  value : String
deriving Repr, DecidableEq

/-- Render `n` as two decimal digits (the fractional part of `toFixed(2)`). -/
def twoDigits (n : Nat) : String :=
  (if n < 10 then "0" else "") ++ toString n

/-- The percentage in basis points (hundredths of a percent), rounded to the
nearest integer with ties rounded up: `⌊(s/t)·100·100 + 1/2⌋`, computed as
`(2·s·10000 + t) / (2·t)` in exact integer arithmetic.  This is what
`((score/totalScore) * 100).toFixed(2)` computes for the integer score values
the code receives (at these magnitudes the JavaScript double computation and
`toFixed` rounding agree with exact arithmetic). -/
def percentBp (s t : Nat) : Nat :=
  (2 * (s * 10000) + t) / (2 * t)

/-- Value `bp` in basis points rendered as a 2-decimal string, e.g. `8000 ↦ "80.00"`. -/
def fixed2 (bp : Nat) : String :=
  toString (bp / 100) ++ "." ++ twoDigits (bp % 100)

/-- The `Percentage` attribute value
(`sorobanSimple.ts`, `generateBadgeMetadataUri`):
`score !== undefined && totalScore !== undefined && totalScore > 0
  ? ((score/totalScore) * 100).toFixed(2) + '%' : 'N/A'`. -/
def percentValue (score totalScore : Option Nat) : String :=
  match score, totalScore with
  | some s, some t => if 0 < t then fixed2 (percentBp s t) ++ "%" else "N/A"
  | _, _ => "N/A"

/-- The `Score` attribute value:
`score !== undefined && totalScore !== undefined
  ? score + '/' + totalScore : 'Passed'`. -/
def scoreValue (score totalScore : Option Nat) : String :=
  match score, totalScore with
  | some s, some t => toString s ++ "/" ++ toString t
  | _, _ => "Passed"

/-- The `attributes` array built by `generateBadgeMetadataUri`
(`issuedDate` is the ISO timestamp captured at generation time). -/
def badgeAttributes (testId walletAddress : String) (testTitle : Option String)
    (score totalScore : Option Nat) (issuedDate : String) : List MetaAttribute :=
  [ { trait_type := "Test ID", value := testId }
  , { trait_type := "Test Title", value := testTitle.getD "Unknown Test" }
  , { trait_type := "Wallet Address", value := walletAddress }
  , { trait_type := "Score", value := scoreValue score totalScore }
  , { trait_type := "Percentage", value := percentValue score totalScore }
  , { trait_type := "Issued Date", value := issuedDate } ]

/-- A stand-in for `JSON.stringify(metadata, null, 2)`: a canonical textual
rendering of the attributes (the exact JSON syntax is irrelevant to the
claims; only which attribute values appear is). -/
def renderAttributes (attrs : List MetaAttribute) : String :=
  String.intercalate ";" (attrs.map (fun a => a.trait_type ++ "=" ++ a.value))

/-- The badge-metadata object key used by `generateBadgeMetadataUri`:
`` `badge-metadata/${testId}_${walletAddress}.json` ``. -/
def badgeMetadataKey (testId walletAddress : String) : String :=
  "badge-metadata/" ++ testId ++ "_" ++ walletAddress ++ ".json"

/-- Function `generateBadgeMetadataUri` (sorobanSimple.ts): uploads the rendered
metadata with `upsert: true` into the `stellar` bucket and returns the public
URL derived purely from the key.  `content` stands for the serialized
metadata JSON. -/
def generateBadgeMetadataUri (store : ObjectStore) (base testId walletAddress content : String) :
    String × ObjectStore :=
  let up := upload store (badgeMetadataKey testId walletAddress) content true
  (publicUrl base "stellar" (badgeMetadataKey testId walletAddress), up.2)

/-! ## Mint / registration services -/

/-- Modelled from the spec: `backend/src/services/storageService.ts`
(`uploadBadgeMetadata`) is not under `src/`; per spec §4.5/§6 it uploads the
metadata blob with `overwrite=true` at key
`badge-metadata/{testId}_{walletAddress}.json` and returns its public URL,
identically to the in-`src/` frontend `generateBadgeMetadataUri`. -/
def uploadBadgeMetadata (store : ObjectStore) (base testId receiver content : String) :
    String × ObjectStore :=
  generateBadgeMetadataUri store base testId receiver content

/-- Function `mintBadgeNFT` from `backend/src/services/nftService.ts` (the service the
`/api/blockchain/mint-nft` controller calls): generates and uploads the
metadata, then returns a simulated result with
`` tokenId = `nft_${testId}_${Date.now()}` `` and
`` txHash = `sim_${Date.now()}_${rand}` ``.  No badge row is read or
written here, and there is no lookup of a previously minted token. -/
def mintBadgeNFT (store : ObjectStore) (base receiver testId : String)
    (testTitle : Option String) (score totalScore : Option Nat)
    (now : Nat) (rand : String) : NFTMintResult × ObjectStore :=
  let uploaded := uploadBadgeMetadata store base testId receiver
    (renderAttributes (badgeAttributes testId receiver testTitle score totalScore (toString now)))
  ({ success := true
   , txHash := mkSimTxHash now rand
   , tokenId := fallbackTokenId testId now
   , metadataUrl := uploaded.1 }, uploaded.2)

/-- Function `registerTestOnChain` from `src/unnamed/part_004`
(`backend/src/services/registryService.ts`, the service the
`/api/blockchain/register-test` controller calls): unconditionally returns a
fresh simulated `txHash`.  It performs no Record Store access at all; the
`registry : List (String × String)` parameter (testId ↦ stored registry
reference) is threaded through unchanged to make that explicit. -/
def registerTestOnChain (registry : List (String × String))
    (testId creator metadataCid : String) (now : Nat) (rand : String) :
    TestRegistrationResult × List (String × String) :=
  ({ success := true
   , txHash := mkSimTxHash now rand
   , testMetadata :=
     { testId := testId, creator := creator, metadataCid := metadataCid, createdAt := now } },
   registry)

/-- Network operations the Stellar-SDK services can perform
(`server.getAccount`, `server.simulateTransaction`, `server.sendTransaction`,
`server.getTransaction`). -/
inductive NetOp where
  | getAccount
  | simulateTx
  | sendTx
  | getTx
deriving Repr, DecidableEq

/-- The no-signer branch of `badgeNFTService.mintBadgeNFT`
(`if (!signerKeypair) { ... return { success: true, txHash, tokenId,
metadataUrl: metadataUri } }`): it returns before any `server.*` call, so the
list of performed network operations is empty.  `randTok`/`randTx` are the
two `Math.random()` suffixes. -/
def mintBadgeNFT_noSigner (metadataUri : String) (now : Nat) (randTok randTx : String) :
    NFTMintResult × List NetOp :=
  ({ success := true
   , txHash := mkSimTxHash now randTx
   , tokenId := mkSimTokenId now randTok
   , metadataUrl := metadataUri }, [])

/-- The no-signer branch of `testRegistryService.registerTestOnChain`
(`src/unnamed/part_005`): returns a fresh simulated `txHash` before any
`server.*` call. -/
def registerTestOnChain_noSigner (testId creator metadataCid : String)
    (now : Nat) (rand : String) : TestRegistrationResult × List NetOp :=
  ({ success := true
   , txHash := mkSimTxHash now rand
   , testMetadata :=
     { testId := testId, creator := creator, metadataCid := metadataCid, createdAt := now } },
   [])

/-- Token-id extraction after a successful signed mint
(`badgeNFTService.mintBadgeNFT`, lines 104–118): `tokenId` is initialised to
the generated fallback `` `nft_${testId}_${Date.now()}` `` and replaced by
`scValToNative(txResult.returnValue)` only when that decode succeeds;
a decode failure logs a warning (`warned = true`) and keeps the fallback. -/
def extractTokenId (testId : String) (now : Nat) (decoded : Option String) :
    String × Bool :=
  match decoded with
  | some t => (t, false)
  | none => (fallbackTokenId testId now, true)

/-- The result `badgeNFTService.mintBadgeNFT` returns after a signed
transaction reached `SUCCESS`: `success: true` with the real `txHash`,
the (decoded or fallback) token id, and the caller-supplied metadata URI.
The `Bool` is the decode-failure warning flag. -/
def signedMintResult (testId txHash metadataUri : String) (now : Nat)
    (decoded : Option String) : NFTMintResult × Bool :=
  let te := extractTokenId testId now decoded
  ({ success := true
   , txHash := txHash
   , tokenId := te.1
   , metadataUrl := metadataUri }, te.2)

/-! ## Badge rows and the retry-mint flow (`src/unnamed/part_000`, BadgesTab) -/

/-- A row of the `badges` table, as read/written by BadgesTab. -/
structure Badge where
  id : String
  test_id : String
  wallet_address : String
  nft_token_id : Option String
  mint_tx_hash : Option String
  metadata_url : Option String
deriving Repr, DecidableEq

/-- The Supabase update issued by `retryMintNFT`:
`.from('badges').update({ nft_token_id, mint_tx_hash, metadata_url })
.eq('id', badge.id)` — an in-place update of the rows whose `id` matches;
it can never insert a row. -/
def updateBadgeRow (badges : List Badge) (rowId : String) (r : NFTMintResult) :
    List Badge :=
  badges.map fun b =>
    if b.id = rowId then
      { b with nft_token_id := some r.tokenId
             , mint_tx_hash := some r.txHash
             , metadata_url := some r.metadataUrl }
    else b

/-- Function `retryMintNFT` from BadgesTab (`src/unnamed/part_000`): calls the backend
mint (`mintNFTViaBackend` → `nftService.mintBadgeNFT`) with the badge's test
id, the test title (or `'Achievement Badge'`) and score `0/0`, then updates
the existing badge row in place with the returned token/tx/url. -/
def retryMintNFT (store : ObjectStore) (base walletAddress : String)
    (badges : List Badge) (badge : Badge) (title : String)
    (now : Nat) (rand : String) :
    NFTMintResult × List Badge × ObjectStore :=
  let minted := mintBadgeNFT store base walletAddress badge.test_id
    (some title) (some 0) (some 0) now rand
  (minted.1, updateBadgeRow badges badge.id minted.1, minted.2)

/-! ## HTTP controllers (`src/unnamed/part_003`, blockchainController.ts) -/

/-- JavaScript truthiness of a request body string field: `!x` is true when
the field is absent (`undefined`) or the empty string. -/
def present (o : Option String) : Bool :=
  match o with
  | none => false
  | some s => !s.isEmpty

/-- Body of `POST /api/blockchain/register-test`. -/
structure RegisterReq where
  testId : Option String
  creator : Option String
  metadataCid : Option String
deriving Repr, DecidableEq

/-- Body of `POST /api/blockchain/mint-nft`. -/
structure MintReq where
  receiver : Option String
  testId : Option String
  testTitle : Option String
  score : Option Nat
  totalScore : Option Nat
deriving Repr, DecidableEq

/-- What the awaited service call did: resolved with a value, or threw
(the controller's `catch (error) { ... error.message ... }` receives the
message). -/
inductive ServiceOutcome (α : Type) where
  | ok (v : α)
  | thrown (message : String)
deriving Repr, DecidableEq

/-- The JSON body shapes the controllers produce: `{error}` on 400,
`{error, details}` on 500, `{success, message, data}` on 200. -/
inductive ApiBody (α : Type) where
  | errorOnly (error : String)
  | errorDetails (error details : String)
  | payload (success : Bool) (message : String) (data : α)
deriving Repr, DecidableEq

structure ApiResponse (α : Type) where
  status : Nat
  body : ApiBody α
deriving Repr, DecidableEq

/-- Controller `registerTest`: 400 when a field is falsy, otherwise forwards
to `registerTestOnChain` and maps resolution to a 200 `{success, message,
data}` and a throw to a 500 `{error, details}`. -/
def registerTestHandler (req : RegisterReq)
    (svc : ServiceOutcome TestRegistrationResult) : ApiResponse TestRegistrationResult :=
  if !(present req.testId) || !(present req.creator) || !(present req.metadataCid) then
    { status := 400
    , body := .errorOnly "Missing required fields: testId, creator, metadataCid" }
  else
    match svc with
    | .ok r =>
      { status := 200, body := .payload true "Test registered on blockchain" r }
    | .thrown m =>
      { status := 500, body := .errorDetails "Failed to register test on blockchain" m }

/-- Controller `mintNFT`: 400 when `receiver` or `testId` is falsy, otherwise
forwards to `mintBadgeNFT` and maps resolution/throw to 200/500. -/
def mintNFTHandler (req : MintReq)
    (svc : ServiceOutcome NFTMintResult) : ApiResponse NFTMintResult :=
  if !(present req.receiver) || !(present req.testId) then
    { status := 400
    , body := .errorOnly "Missing required fields: receiver, testId" }
  else
    match svc with
    | .ok r =>
      { status := 200, body := .payload true "NFT badge minted successfully" r }
    | .thrown m =>
      { status := 500, body := .errorDetails "Failed to mint NFT badge" m }

/-! ## Polling loop (`badgeNFTService.ts` / `src/unnamed/part_005`) -/

/-- Transaction status as the workflows observe it (spec §3, `ChainReceipt`:
`chainStatus ∈ {PENDING, SUCCESS, FAILED}`). -/
inductive TxStatus where
  | pending
  | success
  | failed
deriving Repr, DecidableEq

/-- The fixed polling policy used by both services: 30 attempts. -/
def maxPollAttempts : Nat := 30

/-- The fixed polling policy: 1000 ms sleep between attempts. -/
def pollIntervalMs : Nat := 1000

/-- The loop body of
`while (status === 'PENDING' && attempts < maxAttempts) {
   await sleep(1000); status = (await server.getTransaction(txHash)).status;
   attempts++; }`
with the remaining allowed attempts (`maxAttempts - attempts`) as structural
fuel and the successive `getTransaction` responses given by `oracle`.
Returns the final status together with the number of attempts consumed. -/
def pollAux (oracle : Nat → TxStatus) : Nat → TxStatus → Nat → TxStatus × Nat
  | 0, status, attempts => (status, attempts)
  | fuel + 1, status, attempts =>
    if status = TxStatus.pending then
      pollAux oracle fuel (oracle attempts) (attempts + 1)
    else
      (status, attempts)

/-- Function `pollUntilFinal(txHash, maxAttempts, intervalMs)`: run the polling loop
from the initial `sendTransaction` status with `attempts = 0`. -/
def pollUntilFinal (oracle : Nat → TxStatus) (maxAttempts : Nat) (initial : TxStatus) :
    TxStatus × Nat :=
  pollAux oracle maxAttempts initial 0

/-- The check following the loop:
`if (status !== 'SUCCESS') throw new Error('Transaction failed with status: ...')`
— exhausting the attempts with the status still `PENDING` (or ending on
`FAILED`) surfaces as a thrown error, never as a silent success. -/
def finalizePoll (final : TxStatus) : Except String Unit :=
  if final = TxStatus.success then .ok ()
  else .error "Transaction failed with status: not SUCCESS"

/-! ## Read-only chain queries (`src/unnamed/part_005`, badgeNFTService.ts) -/

/-- How far a read-only simulation got: `simError` when
`isSimulationError(simulated)` holds, `noResult` when `simulated.result` is
missing, `thrown` when any step raised (caught by the surrounding
`try`/`catch`), `value` when `scValToNative` produced a value. -/
inductive QueryOutcome (α : Type) where
  | simError (reason : String)
  | noResult
  | thrown (message : String)
  | value (v : α)
deriving Repr, DecidableEq

/-- The raw decoded record of the Test Registry contract
(`{ test_id, creator, metadata_cid, created_at }`). -/
structure TestMetadataRaw where
  test_id : String
  creator : String
  metadata_cid : String
  created_at : Nat
deriving Repr, DecidableEq

/-- Field mapping `raw ↦ { testId, creator, metadataCid, createdAt }`. -/
def decodeTestMetadata (r : TestMetadataRaw) : TestMetadata :=
  { testId := r.test_id
  , creator := r.creator
  , metadataCid := r.metadata_cid
  , createdAt := r.created_at }

/-- Function `getTestFromChain` (`src/unnamed/part_005`): `null` on simulation error,
missing result or exception; `result ? {...} : null` on a decoded value
(`value none` models a falsy `scValToNative` result). -/
def getTestFromChain (q : QueryOutcome (Option TestMetadataRaw)) : Option TestMetadata :=
  match q with
  | .value (some r) => some (decodeTestMetadata r)
  | .value none => none
  | .simError _ => none
  | .noResult => none
  | .thrown _ => none

/-- Function `getNFTMetadata` (badgeNFTService.ts): returns the decoded token URI, or
`null` on simulation error, missing result or exception. -/
def getNFTMetadata (q : QueryOutcome String) : Option String :=
  match q with
  | .value s => some s
  | .simError _ => none
  | .noResult => none
  | .thrown _ => none

/-- Function `listTestsFromChain` (`src/unnamed/part_005`): maps the decoded array, or
returns `[]` on simulation error, missing result, a non-array decode
(`value none`) or exception. -/
def listTestsFromChain (q : QueryOutcome (Option (List TestMetadataRaw))) :
    List TestMetadata :=
  match q with
  | .value (some l) => l.map decodeTestMetadata
  | .value none => []
  | .simError _ => []
  | .noResult => []
  | .thrown _ => []

/-! ## Issuance gate for practice mode (spec §4.5) -/

inductive IssuanceOutcome where
  | refused
  | minted (r : NFTMintResult)
deriving Repr, DecidableEq

/-- Insert-or-update of the badge row for `(testId, receiver)` after a
successful mint (the non-practice path). -/
def upsertBadge (badges : List Badge) (newId testId receiver : String)
    (r : NFTMintResult) : List Badge :=
  if badges.any (fun b => b.test_id == testId && b.wallet_address == receiver) then
    badges.map fun b =>
      if b.test_id == testId && b.wallet_address == receiver then
        { b with nft_token_id := some r.tokenId
               , mint_tx_hash := some r.txHash
               , metadata_url := some r.metadataUrl }
      else b
  else
    badges ++ [{ id := newId
               , test_id := testId
               , wallet_address := receiver
               , nft_token_id := some r.tokenId
               , mint_tx_hash := some r.txHash
               , metadata_url := some r.metadataUrl }]

/-- Modelled from the spec: the attempt-submission flow (`TakeTestTab.tsx`),
the only place a practice/no-badge attempt could reach issuance, is not under
`src/`.  Spec §4.5: the workflow must refuse to mint in practice/no-badge
mode ("practice attempts never produce badges — this is a hard business
rule"); otherwise it mints via `nftService.mintBadgeNFT` and upserts the
badge row. -/
def issueBadge (practiceMode : Bool) (store : ObjectStore)
    (base receiver testId newId : String) (badges : List Badge)
    (now : Nat) (rand : String) :
    IssuanceOutcome × List Badge × ObjectStore :=
  if practiceMode then
    (.refused, badges, store)
  else
    let minted := mintBadgeNFT store base receiver testId none none none now rand
    (.minted minted.1, upsertBadge badges newId testId receiver minted.1, minted.2)

/-! ## Claim theorems -/

/-- C2 counterexample: calling the Registration Workflow twice (timestamps 1
and 2, random suffixes "a" and "b") returns two different `txHash`es, and the
Record Store (here started empty) still holds no registry reference after
both calls — the reference is not written "exactly once", it is never
written.  This falsifies the claim that the two calls return the same
`txHash` and write the reference exactly once. -/
theorem C2_counterexample :
    (let r1 := registerTestOnChain [] "T" "C" "cid" 1 "a"
     let r2 := registerTestOnChain r1.2 "T" "C" "cid" 2 "b"
     r1.1.txHash = "sim_1_a" ∧ r2.1.txHash = "sim_2_b"
       ∧ r1.1.txHash ≠ r2.1.txHash ∧ r2.2 = []) := by
  decide

/-- C2 (amended): each invocation of the Registration Workflow succeeds with
a freshly generated simulated `txHash` `sim_<now>_<rand>` and performs no
Record Store access at all — the store is returned unchanged (zero writes,
not exactly one), and no idempotency check precedes the registration. -/
theorem C2_register_fresh_hash_no_store_write (registry : List (String × String))
    (testId creator metadataCid : String) (now : Nat) (rand : String) :
    (registerTestOnChain registry testId creator metadataCid now rand).2 = registry
    ∧ (registerTestOnChain registry testId creator metadataCid now rand).1.txHash
        = mkSimTxHash now rand
    ∧ (registerTestOnChain registry testId creator metadataCid now rand).1.success = true :=
  ⟨rfl, rfl, rfl⟩

/-- C3: an issuance request in practice/no-badge mode is refused outright:
the workflow returns `refused` and leaves both the badge rows and the object
store untouched, so no Badge row with a `token_id` is ever created or
mutated by a practice attempt. -/
theorem C3_practice_mode_refuses (store : ObjectStore)
    (base receiver testId newId : String) (badges : List Badge)
    (now : Nat) (rand : String) :
    issueBadge true store base receiver testId newId badges now rand
      = (IssuanceOutcome.refused, badges, store) :=
  rfl

/-- C5 counterexample: with `score = 8` present and `totalScore` absent the
generated `Score` attribute is `"Passed"`, the same value as when `score` is
absent — falsifying the claim that whenever `score` is present the attribute
is `"score/total"` (the code requires BOTH `score` and `totalScore` to be
present for the `"score/total"` form). -/
theorem C5_counterexample :
    scoreValue (some 8) none = "Passed" ∧ scoreValue none none = "Passed" :=
  ⟨rfl, rfl⟩

/-- C5 (amended): the `Percentage` attribute is `"80.00%"` for score 8 of 10
and `"N/A"` whenever `totalScore` is 0 or absent (or `score` is absent); the
`Score` attribute is `"score/total"` exactly when both `score` and
`totalScore` are present, and `"Passed"` otherwise — including the case of a
present `score` with an absent `totalScore`. -/
theorem C5_metadata_score_percentage :
    percentValue (some 8) (some 10) = "80.00%"
    ∧ (∀ s, percentValue (some s) (some 0) = "N/A")
    ∧ (∀ s, percentValue (some s) none = "N/A")
    ∧ (∀ t, percentValue none t = "N/A")
    ∧ (∀ t, scoreValue none t = "Passed")
    ∧ (∀ s, scoreValue (some s) none = "Passed")
    ∧ (∀ s t, scoreValue (some s) (some t) = toString s ++ "/" ++ toString t) := by
  refine ⟨by decide, fun s => rfl, fun s => rfl, fun t => ?_, fun t => ?_,
    fun s => rfl, fun s t => rfl⟩
  · cases t <;> rfl
  · cases t <;> rfl

/-- C9: on a successful signed mint whose return-value decode fails, the
service synthesizes the placeholder token id `nft_<testId>_<now>`, sets the
warning flag instead of failing, and still returns `success = true` with the
real transaction hash. -/
theorem C9_decode_fallback (testId txHash metadataUri : String) (now : Nat)
    (decoded : Option String) (h : decoded = none) :
    (signedMintResult testId txHash metadataUri now decoded).1.success = true
    ∧ (signedMintResult testId txHash metadataUri now decoded).1.txHash = txHash
    ∧ (signedMintResult testId txHash metadataUri now decoded).1.tokenId
        = fallbackTokenId testId now
    ∧ (signedMintResult testId txHash metadataUri now decoded).2 = true := by
  subst h
  exact ⟨rfl, rfl, rfl, rfl⟩

/-- Witness for C9 at a concrete failed decode. -/
theorem C9_witness :
    (signedMintResult "T" "realhash" "u" 7 none).1.txHash = "realhash"
    ∧ (signedMintResult "T" "realhash" "u" 7 none).1.tokenId = fallbackTokenId "T" 7
    ∧ (signedMintResult "T" "realhash" "u" 7 none).1.success = true :=
  have h := C9_decode_fallback "T" "realhash" "u" 7 none rfl
  ⟨h.2.1, h.2.2.1, h.1⟩

/-- C10: the read-only chain queries are total over failures — any simulation
error, missing simulation result, or thrown exception yields `none`
(respectively the empty list), and the return types (`Option`/`List`) carry
no error channel, so no error can propagate to the caller. -/
theorem C10_readonly_queries_total :
    (∀ r, getTestFromChain (.simError r) = none)
    ∧ getTestFromChain .noResult = none
    ∧ (∀ m, getTestFromChain (.thrown m) = none)
    ∧ (∀ r, getNFTMetadata (.simError r) = none)
    ∧ getNFTMetadata .noResult = none
    ∧ (∀ m, getNFTMetadata (.thrown m) = none)
    ∧ (∀ r, listTestsFromChain (.simError r) = [])
    ∧ listTestsFromChain .noResult = []
    ∧ (∀ m, listTestsFromChain (.thrown m) = []) :=
  ⟨fun _ => rfl, rfl, fun _ => rfl, fun _ => rfl, rfl, fun _ => rfl,
   fun _ => rfl, rfl, fun _ => rfl⟩

/-- A pending badge row (minting not yet succeeded) used by the concrete
issuance scenarios. -/
def badgeRowPending : Badge :=
  { id := "b1", test_id := "T", wallet_address := "W"
  , nft_token_id := none, mint_tx_hash := none, metadata_url := none }

/-- A badge row of a different user/row id, used to exercise the
untouched-rows part of the retry theorem. -/
def badgeRowOther : Badge :=
  { id := "b9", test_id := "T2", wallet_address := "V"
  , nft_token_id := some "tok9", mint_tx_hash := some "h9", metadata_url := some "u9" }

/-- C1 counterexample: retrying the mint for the same badge (same
`(testId, receiver)`) at timestamps 1 and then 2: the first call stores token
id `"nft_T_1"` on the row, but the second call mints again and returns the
fresh token id `"nft_T_2"` — not the stored `"nft_T_1"` — falsifying the
claim that a second call returns the existing `token_id` unchanged. -/
theorem C1_counterexample :
    (let first := retryMintNFT [] "sb" "W" [badgeRowPending] badgeRowPending
       "Achievement Badge" 1 "a"
     let second := retryMintNFT first.2.2 "sb" "W" first.2.1 badgeRowPending
       "Achievement Badge" 2 "b"
     first.2.1.head?.bind Badge.nft_token_id = some "nft_T_1"
       ∧ second.1.tokenId = "nft_T_2"
       ∧ second.1.tokenId ≠ "nft_T_1") := by
  decide

/-- C1 (amended): invoking the issuance retry twice for the same
`(testId, receiver)` never creates a second Badge row — the update is in
place, preserving the number of rows and leaving rows with other ids
untouched — but each call re-mints: it returns the freshly generated token
id `nft_<testId>_<now>` (and overwrites the stored one) instead of returning
an existing `token_id`; no idempotency lookup is performed. -/
theorem C1_retry_updates_in_place_but_remints (store : ObjectStore)
    (base walletAddress title : String) (badges : List Badge) (badge : Badge)
    (now : Nat) (rand : String) :
    (retryMintNFT store base walletAddress badges badge title now rand).2.1.length
        = badges.length
    ∧ (retryMintNFT store base walletAddress badges badge title now rand).1.tokenId
        = fallbackTokenId badge.test_id now
    ∧ ∀ b ∈ badges, b.id ≠ badge.id →
        b ∈ (retryMintNFT store base walletAddress badges badge title now rand).2.1 := by
  refine ⟨?_, rfl, ?_⟩
  · simp [retryMintNFT, updateBadgeRow]
  · intro b hb hne
    simp only [retryMintNFT, updateBadgeRow]
    exact List.mem_map.mpr ⟨b, hb, by simp [hne]⟩

/-- Witness for C1 (amended) on a concrete two-row table. -/
theorem C1_witness :
    (retryMintNFT [] "sb" "W" [badgeRowPending, badgeRowOther] badgeRowPending
        "t" 5 "r").2.1.length = 2
    ∧ badgeRowOther ∈ (retryMintNFT [] "sb" "W" [badgeRowPending, badgeRowOther]
        badgeRowPending "t" 5 "r").2.1 :=
  have h := C1_retry_updates_in_place_but_remints [] "sb" "W" "t"
    [badgeRowPending, badgeRowOther] badgeRowPending 5 "r"
  ⟨h.1, h.2.2 badgeRowOther (by simp) (by decide)⟩

/-- C4 counterexample: in no-signer (simulation) mode the returned `txHash`
carries the reserved `sim_` marker but the returned `tokenId` does not — it
is prefixed `nft_`, and that same `nft_` prefix is also produced by the
signed-mode decode fallback (`fallbackTokenId`), i.e. by a real on-chain
result — falsifying the claim that BOTH identifiers carry the reserved
simulation-mode marker making the result distinguishable. -/
theorem C4_counterexample :
    (let r := (mintBadgeNFT_noSigner "u" 1 "a" "b").1
     hasPrefixStr "sim_" r.txHash
       ∧ ¬ hasPrefixStr "sim_" r.tokenId
       ∧ hasPrefixStr "nft_" r.tokenId
       ∧ hasPrefixStr "nft_" (fallbackTokenId "T" 2)) := by
  decide

/-- C4 (amended): mint and register invoked without a signing keypair perform
no network operation and return structurally valid successful results; the
`txHash` carries the reserved `sim_` simulation prefix, while the `tokenId`
carries an `nft_` prefix that the signed-mode decode fallback also uses, so
only the `txHash` marks the simulation mode. -/
theorem C4_no_signer_simulation (metadataUri testId creator metadataCid : String)
    (now : Nat) (randTok randTx rand : String) :
    (mintBadgeNFT_noSigner metadataUri now randTok randTx).2 = []
    ∧ (mintBadgeNFT_noSigner metadataUri now randTok randTx).1.success = true
    ∧ hasPrefixStr "sim_" (mintBadgeNFT_noSigner metadataUri now randTok randTx).1.txHash
    ∧ hasPrefixStr "nft_" (mintBadgeNFT_noSigner metadataUri now randTok randTx).1.tokenId
    ∧ (mintBadgeNFT_noSigner metadataUri now randTok randTx).1.metadataUrl = metadataUri
    ∧ (registerTestOnChain_noSigner testId creator metadataCid now rand).2 = []
    ∧ (registerTestOnChain_noSigner testId creator metadataCid now rand).1.success = true
    ∧ hasPrefixStr "sim_"
        (registerTestOnChain_noSigner testId creator metadataCid now rand).1.txHash
    ∧ hasPrefixStr "nft_" (fallbackTokenId testId now) :=
  ⟨rfl, rfl, hasPrefixStr_append _ _, hasPrefixStr_append _ _, rfl, rfl, rfl,
   hasPrefixStr_append _ _, hasPrefixStr_append _ _⟩

/-- C8: uploading with `overwrite=false` onto an existing key fails with
`Conflict` and leaves the store unchanged; uploading with `overwrite=true`
succeeds; and the public URL returned for the badge-metadata key is a pure
derivation from the key, identical across repeated uploads of that key. -/
theorem C8_upload_contract (store : ObjectStore) (key c1 c2 base testId wallet : String)
    (h : (store.lookup key).isSome = true) :
    upload store key c1 false = (UploadOutcome.conflict, store)
    ∧ (upload store key c1 true).1 = UploadOutcome.uploaded
    ∧ (generateBadgeMetadataUri store base testId wallet c1).1
        = (generateBadgeMetadataUri
            (generateBadgeMetadataUri store base testId wallet c1).2
            base testId wallet c2).1 := by
  obtain ⟨v, hv⟩ := Option.isSome_iff_exists.mp h
  refine ⟨?_, ?_, rfl⟩
  · simp [upload, hv]
  · simp [upload, hv]

/-- Witness for C8 on a one-entry store whose key already exists. -/
theorem C8_witness :
    upload [("k", "v")] "k" "c" false = (UploadOutcome.conflict, [("k", "v")])
    ∧ (upload [("k", "v")] "k" "c" true).1 = UploadOutcome.uploaded :=
  have h := C8_upload_contract [("k", "v")] "k" "c" "d" "b" "T" "W" (by decide)
  ⟨h.1, h.2.1⟩

lemma pollAux_attempts_le (oracle : Nat → TxStatus) :
    ∀ (fuel : Nat) (status : TxStatus) (attempts : Nat),
      (pollAux oracle fuel status attempts).2 ≤ attempts + fuel := by
  intro fuel
  induction fuel with
  | zero => intro status attempts; exact Nat.le_refl _
  | succ n ih =>
    intro status attempts
    by_cases h : status = TxStatus.pending
    · calc (pollAux oracle (n + 1) status attempts).2
          = (pollAux oracle n (oracle attempts) (attempts + 1)).2 := by
            simp [pollAux, h]
        _ ≤ (attempts + 1) + n := ih _ _
        _ = attempts + (n + 1) := by omega
    · simp [pollAux, h]

lemma pollAux_pending_exhausts (oracle : Nat → TxStatus) :
    ∀ (fuel : Nat) (status : TxStatus) (attempts : Nat),
      (pollAux oracle fuel status attempts).1 = TxStatus.pending →
      (pollAux oracle fuel status attempts).2 = attempts + fuel := by
  intro fuel
  induction fuel with
  | zero => intro status attempts _; rfl
  | succ n ih =>
    intro status attempts hpend
    by_cases h : status = TxStatus.pending
    · have heq : pollAux oracle (n + 1) status attempts
          = pollAux oracle n (oracle attempts) (attempts + 1) := by
        simp [pollAux, h]
      rw [heq] at hpend ⊢
      rw [ih _ _ hpend]
      omega
    · exfalso
      apply h
      have heq : pollAux oracle (n + 1) status attempts = (status, attempts) := by
        simp [pollAux, h]
      rw [heq] at hpend
      exact hpend

/-- C6: the polling loop always terminates within the fixed policy bound —
it uses at most 30 attempts (a 30 × 1000 ms = 30 s budget); if it ends still
`PENDING` then it exhausted exactly the 30 attempts; whenever it stops early
the observed status is terminal (`SUCCESS` or `FAILED`); and any non-`SUCCESS`
final status is signalled to the caller as a thrown error (the timeout
signal) rather than a silent success. -/
theorem C6_pollUntilFinal_bounded (oracle : Nat → TxStatus) (initial : TxStatus) :
    (pollUntilFinal oracle maxPollAttempts initial).2 ≤ maxPollAttempts
    ∧ (pollUntilFinal oracle maxPollAttempts initial).2 * pollIntervalMs ≤ 30000
    ∧ ((pollUntilFinal oracle maxPollAttempts initial).1 = TxStatus.pending →
        (pollUntilFinal oracle maxPollAttempts initial).2 = maxPollAttempts)
    ∧ ((pollUntilFinal oracle maxPollAttempts initial).1 ≠ TxStatus.pending →
        (pollUntilFinal oracle maxPollAttempts initial).1 = TxStatus.success
        ∨ (pollUntilFinal oracle maxPollAttempts initial).1 = TxStatus.failed)
    ∧ ((pollUntilFinal oracle maxPollAttempts initial).1 ≠ TxStatus.success →
        ∃ msg, finalizePoll (pollUntilFinal oracle maxPollAttempts initial).1
          = Except.error msg) := by
  have hle : (pollUntilFinal oracle maxPollAttempts initial).2 ≤ maxPollAttempts :=
    pollAux_attempts_le oracle maxPollAttempts initial 0
  refine ⟨hle, ?_, ?_, ?_, ?_⟩
  · have : maxPollAttempts * pollIntervalMs = 30000 := rfl
    calc (pollUntilFinal oracle maxPollAttempts initial).2 * pollIntervalMs
        ≤ maxPollAttempts * pollIntervalMs := Nat.mul_le_mul_right _ hle
      _ = 30000 := this
  · intro hpend
    exact pollAux_pending_exhausts oracle maxPollAttempts initial 0 hpend
  · intro hne
    cases hfin : (pollUntilFinal oracle maxPollAttempts initial).1 with
    | pending => exact absurd hfin hne
    | success => exact Or.inl rfl
    | failed => exact Or.inr rfl
  · intro hns
    refine ⟨"Transaction failed with status: not SUCCESS", ?_⟩
    unfold finalizePoll
    rw [if_neg hns]

/-- Witness for C6 with an oracle that never reports a terminal status: the
loop stops after exactly 30 attempts, still `PENDING`, and the finalization
signals the timeout as an error. -/
theorem C6_witness :
    (pollUntilFinal (fun _ => TxStatus.pending) maxPollAttempts TxStatus.pending).2
        = maxPollAttempts
    ∧ ∃ msg, finalizePoll
        (pollUntilFinal (fun _ => TxStatus.pending) maxPollAttempts TxStatus.pending).1
        = Except.error msg :=
  have h := C6_pollUntilFinal_bounded (fun _ => TxStatus.pending) TxStatus.pending
  ⟨h.2.2.1 (by decide), h.2.2.2.2 (by decide)⟩

lemma registerTestHandler_contract (req : RegisterReq)
    (svc : ServiceOutcome TestRegistrationResult) :
    ((registerTestHandler req svc).status = 400 ↔
      (present req.testId = false ∨ present req.creator = false
        ∨ present req.metadataCid = false))
    ∧ ((registerTestHandler req svc).status = 500 ↔
      (present req.testId = true ∧ present req.creator = true
        ∧ present req.metadataCid = true ∧ ∃ m, svc = .thrown m))
    ∧ (∀ m, svc = .thrown m → (registerTestHandler req svc).status = 500 →
        (registerTestHandler req svc).body
          = .errorDetails "Failed to register test on blockchain" m)
    ∧ (∀ r, svc = .ok r → present req.testId = true → present req.creator = true →
        present req.metadataCid = true →
        registerTestHandler req svc
          = { status := 200
            , body := .payload true "Test registered on blockchain" r }) := by
  cases ht : present req.testId <;> cases hc : present req.creator <;>
    cases hm : present req.metadataCid <;> cases svc <;>
    simp_all [registerTestHandler]

lemma mintNFTHandler_contract (req : MintReq) (svc : ServiceOutcome NFTMintResult) :
    ((mintNFTHandler req svc).status = 400 ↔
      (present req.receiver = false ∨ present req.testId = false))
    ∧ ((mintNFTHandler req svc).status = 500 ↔
      (present req.receiver = true ∧ present req.testId = true ∧ ∃ m, svc = .thrown m))
    ∧ (∀ m, svc = .thrown m → (mintNFTHandler req svc).status = 500 →
        (mintNFTHandler req svc).body = .errorDetails "Failed to mint NFT badge" m)
    ∧ (∀ r, svc = .ok r → present req.receiver = true → present req.testId = true →
        mintNFTHandler req svc
          = { status := 200, body := .payload true "NFT badge minted successfully" r }) := by
  cases ht : present req.receiver <;> cases hc : present req.testId <;> cases svc <;>
    simp_all [mintNFTHandler]

/-- C7: `register-test` answers 400 exactly when one of `testId`, `creator`,
`metadataCid` is missing (absent or empty) and `mint-nft` answers 400 exactly
when `receiver` or `testId` is missing; each answers 500 with an
`{error, details}` body exactly when all fields are present and the workflow
threw; and each answers a `{success, message, data}` body on workflow
success. -/
theorem C7_http_status_contract (rreq : RegisterReq)
    (rsvc : ServiceOutcome TestRegistrationResult)
    (mreq : MintReq) (msvc : ServiceOutcome NFTMintResult) :
    (((registerTestHandler rreq rsvc).status = 400 ↔
      (present rreq.testId = false ∨ present rreq.creator = false
        ∨ present rreq.metadataCid = false))
    ∧ ((registerTestHandler rreq rsvc).status = 500 ↔
      (present rreq.testId = true ∧ present rreq.creator = true
        ∧ present rreq.metadataCid = true ∧ ∃ m, rsvc = .thrown m))
    ∧ (∀ m, rsvc = .thrown m → (registerTestHandler rreq rsvc).status = 500 →
        (registerTestHandler rreq rsvc).body
          = .errorDetails "Failed to register test on blockchain" m)
    ∧ (∀ r, rsvc = .ok r → present rreq.testId = true → present rreq.creator = true →
        present rreq.metadataCid = true →
        registerTestHandler rreq rsvc
          = { status := 200
            , body := .payload true "Test registered on blockchain" r }))
    ∧ (((mintNFTHandler mreq msvc).status = 400 ↔
      (present mreq.receiver = false ∨ present mreq.testId = false))
    ∧ ((mintNFTHandler mreq msvc).status = 500 ↔
      (present mreq.receiver = true ∧ present mreq.testId = true
        ∧ ∃ m, msvc = .thrown m))
    ∧ (∀ m, msvc = .thrown m → (mintNFTHandler mreq msvc).status = 500 →
        (mintNFTHandler mreq msvc).body = .errorDetails "Failed to mint NFT badge" m)
    ∧ (∀ r, msvc = .ok r → present mreq.receiver = true → present mreq.testId = true →
        mintNFTHandler mreq msvc
          = { status := 200
            , body := .payload true "NFT badge minted successfully" r })) :=
  ⟨registerTestHandler_contract rreq rsvc, mintNFTHandler_contract mreq msvc⟩

/-- A concrete successful mint result used by the C7 witness. -/
def sampleMintResult : NFTMintResult :=
  { success := true, txHash := "sim_1_a", tokenId := "nft_T_1", metadataUrl := "u" }

/-- Witness for C7: a register request whose workflow threw gets a 500
`{error, details}` body, and a well-formed mint request whose workflow
succeeded gets the 200 `{success, message, data}` response. -/
theorem C7_witness :
    (registerTestHandler ⟨some "t", some "c", some "m"⟩ (.thrown "boom")).body
      = .errorDetails "Failed to register test on blockchain" "boom"
    ∧ mintNFTHandler ⟨some "W", some "T", none, none, none⟩ (.ok sampleMintResult)
      = { status := 200
        , body := .payload true "NFT badge minted successfully" sampleMintResult } :=
  have h := C7_http_status_contract ⟨some "t", some "c", some "m"⟩ (.thrown "boom")
    ⟨some "W", some "T", none, none, none⟩ (.ok sampleMintResult)
  ⟨h.1.2.2.1 "boom" rfl (by decide),
   h.2.2.2.2 sampleMintResult rfl (by decide) (by decide)⟩

end SkillBadges
